import Mathlib

/-!
# Verification of the n8n-api-manager provisioning script

Shallow embedding of `src/scripts/create-api-key.js` (class `N8NAPIManager`).
Network interactions are modelled by oracles: a function from an endpoint
(or round number) to an `HttpOutcome`.  An axios request either resolves
with a status accepted by its `validateStatus` policy or throws
(connection-level failure, or a status rejected by the policy);
`axiosResult` captures exactly that.
-/

/-- Outcome of a single HTTP request on the wire: either a response with a
numeric status code, or a connection-level failure (timeout, refused,
DNS error) that never produced a status. -/
inductive HttpOutcome where
  | status (code : Nat)
  | connFail
deriving DecidableEq, Repr

/-- Axios resolution semantics: a connection-level failure throws; a
response throws iff its status is rejected by the request's
`validateStatus` policy, otherwise the status is returned. -/
def axiosResult (valid : Nat → Bool) : HttpOutcome → Except Unit Nat
  | .connFail => .error ()
  | .status n => if valid n then .ok n else .error ()

/-! ## Credential Validator (`validateAPIKey`, create-api-key.js lines 824-881) -/

/-- The ordered validation endpoints probed by `validateAPIKey`. -/
def testEndpoints : List String :=
  ["/rest/workflows", "/rest/credentials", "/rest/executions"]

/-- One endpoint probe of `validateAPIKey`: the request uses
`validateStatus: s < 500`.  A thrown request (connection failure or 5xx)
is caught and the loop continues (`none`); a 200 ends the loop with
`true`, a 401 with `false`, a 403 with `true`; any other sub-500 status
falls through to the next endpoint (`none`). -/
def endpointStep (o : HttpOutcome) : Option Bool :=
  match axiosResult (fun s => decide (s < 500)) o with
  | .error _ => none
  | .ok s =>
    if s = 200 then some true
    else if s = 401 then some false
    else if s = 403 then some true
    else none

/-- The `for (const endpoint of testEndpoints)` loop of `validateAPIKey`.
Returns the boolean result together with the number of endpoints actually
probed.  Falling off the end of the list returns `true` (the optimistic
default of the source). -/
def validateLoop (resp : String → HttpOutcome) : List String → Bool × Nat
  | [] => (true, 0)
  | e :: rest =>
    match endpointStep (resp e) with
    | some b => (b, 1)
    | none =>
      let p := validateLoop resp rest
      (p.1, p.2 + 1)

/-- `validateAPIKey` (lines 824-881): keys shorter than 20 characters are
rejected up front without probing; otherwise the endpoint loop runs. -/
def validateAPIKey (apiKey : String) (resp : String → HttpOutcome) : Bool × Nat :=
  if apiKey.length < 20 then (false, 0)
  else validateLoop resp testEndpoints

/-- An oracle assigning one outcome to each of the three validation
endpoints (anything else fails at connection level). -/
def oracle3 (a b c : HttpOutcome) : String → HttpOutcome := fun e =>
  if e = "/rest/workflows" then a
  else if e = "/rest/credentials" then b
  else if e = "/rest/executions" then c
  else .connFail

/-! ## Readiness Prober (`waitForN8NReady`, create-api-key.js lines 106-185) -/

/-- The ordered health-check paths probed each round. -/
def healthEndpoints : List String := ["/healthz", "/healthz/readiness", "/api/v1/healthz", "/"]

/-- One health round: the inner endpoint loop uses `validateStatus: () => true`
(so only connection-level failures throw, and those are caught and
skipped); the round passes iff some endpoint answers status 200. -/
def healthRound (resp : String → HttpOutcome) : Bool :=
  healthEndpoints.any (fun e => resp e == .status 200)

/-- Result of the readiness wait: the outcome (`ok true` or the timeout
error), the number of probe rounds performed, whether the confirmatory
login probe was performed, and the settle sleep in milliseconds chosen
before returning. -/
structure ReadyResult where
  outcome : Except String Bool
  rounds : Nat
  loginProbed : Bool
  settleMs : Nat
deriving Repr

/-- The timeout error thrown after the loop exhausts its 45 attempts. -/
def readinessTimeoutMsg : String :=
  "N8N instance is not accessible after 45 attempts over 15.0 minutes"

/-- The `for (let i = 0; i < maxAttempts; i++)` loop of `waitForN8NReady`.
On a round whose health check passed, the login endpoint is probed with
`validateStatus: s < 500`; a sub-500 response leads to a 30000 ms settle
sleep and success, while a thrown probe (connection failure or 5xx) is
caught, leads to a 15000 ms sleep, and still returns success. -/
def waitGo (health : Nat → String → HttpOutcome) (login : Nat → HttpOutcome)
    (i : Nat) : Nat → ReadyResult
  | 0 => { outcome := .error readinessTimeoutMsg, rounds := 0, loginProbed := false, settleMs := 0 }
  | fuel + 1 =>
    if healthRound (health i) then
      match axiosResult (fun s => decide (s < 500)) (login i) with
      | .ok _ => { outcome := .ok true, rounds := 1, loginProbed := true, settleMs := 30000 }
      | .error _ => { outcome := .ok true, rounds := 1, loginProbed := true, settleMs := 15000 }
    else
      let r := waitGo health login (i + 1) fuel
      { r with rounds := r.rounds + 1 }

/-- `waitForN8NReady` with the source's hard-coded `maxAttempts = 45`. -/
def waitForN8NReady (health : Nat → String → HttpOutcome)
    (login : Nat → HttpOutcome) : ReadyResult :=
  waitGo health login 0 45

/-! ## Session-Based Acquirer (`createAPIKeyViaSession`, lines 735-822) -/

/-- The product of acquisition: secret token, label, ISO creation stamp. -/
structure Cred where
  apiKey : String
  label : String
  createdAt : String
deriving DecidableEq, Repr

/-- Oracle for the session path: the login response (status/connection
outcome plus `set-cookie` headers) and the creation response (status
plus the coalesced `apiKey || key || token` field of its body). -/
structure SessionOracle where
  loginOutcome : HttpOutcome
  setCookies : List String
  createOutcome : HttpOutcome
  createBody : Option String
deriving Repr

/-- `createAPIKeyViaSession`: login with `validateStatus: s < 500`
(a thrown request propagates), fail on non-200 status or missing
cookies; build the label `API-<userId>-<epochMillis>`; POST the creation
request; on 201/200 require a token of length > 20, otherwise fail. -/
def createAPIKeyViaSession (userId : String) (now : Nat) (nowIso : String)
    (o : SessionOracle) : Except String Cred :=
  match axiosResult (fun s => decide (s < 500)) o.loginOutcome with
  | .error _ => .error "network error during login"
  | .ok s =>
    if s ≠ 200 then .error ("Login failed with status " ++ toString s)
    else if o.setCookies.isEmpty then .error "No session cookies received"
    else
      let keyLabel := "API-" ++ userId ++ "-" ++ toString now
      match axiosResult (fun s => decide (s < 500)) o.createOutcome with
      | .error _ => .error "network error during creation"
      | .ok cs =>
        if cs = 201 ∨ cs = 200 then
          match o.createBody with
          | some k =>
            if 20 < k.length then .ok { apiKey := k, label := keyLabel, createdAt := nowIso }
            else .error "Invalid API key from session method"
          | none => .error "Invalid API key from session method"
        else .error ("Session API creation failed with status " ++ toString cs)

/-! ## Acquisition Coordinator (`run` step 2, lines 1014-1033) -/

/-- The try/catch cascade of `run`: attempt the session method; on its
failure attempt the browser method exactly once; on double failure throw
the combined error naming both failures.  The second component is the
ordered trace of acquisition strategies invoked. -/
def acquireAPIKey (sessionResult browserResult : Except String Cred) :
    Except String (Cred × String) × List String :=
  match sessionResult with
  | .ok c => (.ok (c, "session"), ["session"])
  | .error se =>
    match browserResult with
    | .ok c => (.ok (c, "browser"), ["session", "browser"])
    | .error be =>
      (.error ("API key creation failed: Session (" ++ se ++ ") and Browser (" ++ be ++ ")"),
       ["session", "browser"])

/-! ## Notifier (`sendWebhookNotification`, lines 947-990) -/

/-- The webhook `data` object fields relevant to the claims. -/
structure WebhookData where
  apiKeyLabel : String
  apiKeyPreview : String
  apiKeyCreated : String
deriving DecidableEq, Repr

/-- JavaScript's `s.substring(0, n)`: the first `n` characters of `s`
(all of `s` when it is shorter). -/
def strTake (s : String) (n : Nat) : String :=
  String.mk (s.toList.take n)

/-- The notification payload's `data` object: the preview is
`apiKey.substring(0, 15) + "..."`. -/
def buildWebhookData (c : Cred) : WebhookData :=
  { apiKeyLabel := c.label
    apiKeyPreview := strTake c.apiKey 15 ++ "..."
    apiKeyCreated := c.createdAt }

/-- `sendWebhookNotification`: skipped when no webhook URL is
configured; otherwise the POST uses axios's default `validateStatus`
(2xx only), and any thrown outcome — timeout, connection failure or
non-2xx status — is caught, logged and swallowed. -/
def sendWebhookNotification (webhookUrl : Option String) (resp : HttpOutcome) :
    Except String Unit :=
  match webhookUrl with
  | none => .ok ()
  | some _ =>
    match axiosResult (fun s => decide (200 ≤ s ∧ s < 300)) resp with
    | .ok _ => .ok ()
    | .error _ => .ok ()

/-! ## Browser-Based Acquirer (`createAPIKeyViaBrowser`, lines 187-733) -/

/-- Oracle for the browser path: the launch of the browser, the creation
of a page, the whole scripted automation (login, navigation, creation,
extraction) folded into one result, plus the outcomes of the diagnostic
screenshot and of `browser.close()`. -/
structure BrowserOracle where
  launchResult : Except String Unit
  newPageResult : Except String Unit
  autoResult : Except String Cred
  screenshotResult : Except String Unit
  closeResult : Except String Unit

/-- Observable effects of one `createAPIKeyViaBrowser` call. -/
structure BrowserRun where
  result : Except String Cred
  screenshotAttempted : Bool
  closeAttempted : Bool

/-- `createAPIKeyViaBrowser`: the catch block takes the error screenshot
only `if (page)` — so a launch or page-creation failure propagates with
no screenshot; the screenshot's own failure is caught and discarded, the
original error is rethrown; the `finally` block closes the browser
`if (browser)`, swallowing close errors. -/
def createAPIKeyViaBrowser (o : BrowserOracle) : BrowserRun :=
  match o.launchResult with
  | .error e => { result := .error e, screenshotAttempted := false, closeAttempted := false }
  | .ok _ =>
    match o.newPageResult with
    | .error e => { result := .error e, screenshotAttempted := false, closeAttempted := true }
    | .ok _ =>
      match o.autoResult with
      | .ok cred => { result := .ok cred, screenshotAttempted := false, closeAttempted := true }
      | .error e =>
        match o.screenshotResult with
        | .ok _ => { result := .error e, screenshotAttempted := true, closeAttempted := true }
        | .error _ => { result := .error e, screenshotAttempted := true, closeAttempted := true }

/-! ## Persistence Writer (`storeAPIKeyInSupabase`, lines 883-945) -/

/-- A row of the `launchmvpfast-saas-starterkit_user` table, restricted
to the columns this script touches.  `id` is the primary key. -/
structure UserRecord where
  id : String
  n8n_api_key : Option String := none
  n8n_api_key_label : Option String := none
  n8n_api_key_created_at : Option String := none
  updated_at : Option String := none
  northflank_project_id : Option String := none
  northflank_project_name : Option String := none
  n8n_instance_url : Option String := none
deriving DecidableEq, Repr

/-- The `updateData` object built by `storeAPIKeyInSupabase`: the four
credential columns are always set; the three metadata columns are set
only when the corresponding configuration value is present. -/
structure UpdateData where
  n8n_api_key : String
  n8n_api_key_label : String
  n8n_api_key_created_at : String
  updated_at : String
  northflank_project_id : Option String := none
  northflank_project_name : Option String := none
  n8n_instance_url : Option String := none
deriving DecidableEq, Repr

/-- Applying a Supabase `.update(updateData)` to one row: exactly the
columns present in `updateData` are overwritten, the rest keep their
values. -/
def applyUpdate (u : UpdateData) (r : UserRecord) : UserRecord :=
  { r with
    n8n_api_key := some u.n8n_api_key
    n8n_api_key_label := some u.n8n_api_key_label
    n8n_api_key_created_at := some u.n8n_api_key_created_at
    updated_at := some u.updated_at
    northflank_project_id :=
      match u.northflank_project_id with
      | some v => some v
      | none => r.northflank_project_id
    northflank_project_name :=
      match u.northflank_project_name with
      | some v => some v
      | none => r.northflank_project_name
    n8n_instance_url :=
      match u.n8n_instance_url with
      | some v => some v
      | none => r.n8n_instance_url }

/-- `storeAPIKeyInSupabase`: run
`.update(updateData).eq('id', userId).select()` — every row whose `id`
equals the user identifier is updated in place; if the returned
(affected) row set is empty the call throws `No user found with ID:`.
No insert is ever issued. -/
def storeAPIKeyInSupabase (db : List UserRecord) (userId : String)
    (u : UpdateData) : Except String (List UserRecord) :=
  let newDb := db.map fun r => if r.id = userId then applyUpdate u r else r
  let affected := db.filter fun r => r.id = userId
  if affected.isEmpty then .error ("No user found with ID: " ++ userId)
  else .ok newDb

/-! ## Environment validation (`constructor` + `validateEnvironment`, lines 8-104) -/

/-- The environment variables read by the constructor.  A variable can be
unset (`none`) or set (possibly to the empty string, which JavaScript
treats as falsy). -/
structure Env where
  N8N_EDITOR_BASE_URL : Option String := none
  N8N_URL : Option String := none
  N8N_USER_EMAIL : Option String := none
  N8N_USER_PASSWORD : Option String := none
  SUPABASE_URL : Option String := none
  SUPABASE_SERVICE_ROLE_KEY : Option String := none
  USER_ID : Option String := none
deriving Repr

/-- JavaScript truthiness of an environment value: unset and the empty
string are falsy. -/
def truthy : Option String → Bool
  | none => false
  | some s => !(s == "")

/-- JavaScript `a || b`. -/
def jsOr (a b : Option String) : Option String :=
  if truthy a then a else b

/-- `this.baseUrl = process.env.N8N_EDITOR_BASE_URL || process.env.N8N_URL`. -/
def coalesceUrl (env : Env) : Option String :=
  jsOr env.N8N_EDITOR_BASE_URL env.N8N_URL

/-- The `required` list of `validateEnvironment`. -/
def requiredVars : List String :=
  ["N8N_USER_EMAIL", "N8N_USER_PASSWORD", "SUPABASE_URL",
   "SUPABASE_SERVICE_ROLE_KEY", "USER_ID"]

/-- `process.env[key]` lookup for the required variables. -/
def envGet (env : Env) : String → Option String
  | "N8N_USER_EMAIL" => env.N8N_USER_EMAIL
  | "N8N_USER_PASSWORD" => env.N8N_USER_PASSWORD
  | "SUPABASE_URL" => env.SUPABASE_URL
  | "SUPABASE_SERVICE_ROLE_KEY" => env.SUPABASE_SERVICE_ROLE_KEY
  | "USER_ID" => env.USER_ID
  | _ => none

/-- `required.filter(key => !process.env[key])`. -/
def missingRequired (env : Env) : List String :=
  requiredVars.filter fun k => !truthy (envGet env k)

/-- A character accepted after the scheme by the URL check
(`[a-zA-Z0-9.-]`). -/
def urlHostChar (c : Char) : Bool :=
  c.isAlpha || c.isDigit || c == '.' || c == '-'

/-- Drop `pre` from the front of `l`, or `none` if `pre` is not a prefix
of `l`. -/
def afterPref : List Char → List Char → Option (List Char)
  | [], l => some l
  | _ :: _, [] => none
  | a :: as, b :: bs => if a = b then afterPref as bs else none

/-- `scheme` followed by at least one host character. -/
def schemeHost (scheme l : List Char) : Bool :=
  match afterPref scheme l with
  | some (c :: _) => urlHostChar c
  | _ => false

/-- The URL format check `/^https?:\/\/[a-zA-Z0-9.-]+/.test(url)`:
the string starts with `http://` or `https://` followed by at least one
`[a-zA-Z0-9.-]` character (the regex is unanchored at the end). -/
def urlRegexTest (s : String) : Bool :=
  schemeHost "http://".toList s.toList || schemeHost "https://".toList s.toList

/-- `url.replace(/\/$/, '')`: remove one trailing slash if present
(and only one). -/
def stripSlashL (l : List Char) : List Char :=
  if l.getLast? = some '/' then l.dropLast else l

/-- The trailing-slash normalization applied to the base URL. -/
def stripTrailingSlash (s : String) : String :=
  String.mk (stripSlashL s.toList)

/-- Does the string end with `/`? -/
def endsWithSlash (s : String) : Bool :=
  s.toList.getLast? == some '/'

/-- Does the string end with `//`? -/
def endsWithDoubleSlash (s : String) : Bool :=
  (s.toList.getLast? == some '/') && (s.toList.dropLast.getLast? == some '/')

/-- A JavaScript `\s` whitespace character (the ASCII portion, which is
all the embedding needs). -/
def jsWs (c : Char) : Bool :=
  c == ' ' || c == '\t' || c == '\n' || c == '\r' || c == '\x0b' || c == '\x0c'

/-- A character allowed in every segment of the email regex
(`[^\s@]`). -/
def emailSegOk (l : List Char) : Bool :=
  l.all fun c => !jsWs c && !(c == '@')

/-- Does the char list contain a `.` that is neither its first nor its
last element (so the regex tail `[^\s@]+\.[^\s@]+` can split around
it)? -/
def internalDotL (t : List Char) : Bool :=
  (t.drop 1).dropLast.contains '.'

/-- The email format check `/^[^\s@]+@[^\s@]+\.[^\s@]+$/.test(email)`:
exactly one `@`, a nonempty whitespace-free part before it, and a
whitespace-free tail after it containing an internal dot. -/
def emailRegexTest (s : String) : Bool :=
  let l := s.toList
  let a := l.takeWhile fun c => !(c == '@')
  match l.dropWhile fun c => !(c == '@') with
  | '@' :: t => !a.isEmpty && emailSegOk a && emailSegOk t && internalDotL t
  | _ => false

/-- The configuration a successfully constructed manager carries. -/
structure Config where
  baseUrl : String
  email : String
  password : String
  supabaseUrl : String
  supabaseKey : String
  userId : String
deriving DecidableEq, Repr

/-- The constructor plus `validateEnvironment` (lines 8-104): read and
coalesce the base URL, reject a falsy or malformed URL, strip one
trailing slash, reject if any required variable is falsy (listing all of
them in one message), reject a malformed email.  The Supabase client
construction in between performs no network call and is omitted.  The
(log-only) Supabase URL format warning is omitted as well. -/
def initManager (env : Env) : Except String Config :=
  if truthy (coalesceUrl env) = false then
    .error "Missing N8N URL: Set either N8N_EDITOR_BASE_URL or N8N_URL"
  else if urlRegexTest ((coalesceUrl env).getD "") = false then
    .error ("Invalid N8N URL format: " ++ (coalesceUrl env).getD "")
  else if missingRequired env ≠ [] then
    .error ("Missing required environment variables: " ++
      String.intercalate ", " (missingRequired env))
  else if emailRegexTest (env.N8N_USER_EMAIL.getD "") = false then
    .error ("Invalid email format: " ++ env.N8N_USER_EMAIL.getD "")
  else
    .ok { baseUrl := stripTrailingSlash ((coalesceUrl env).getD "")
          email := env.N8N_USER_EMAIL.getD ""
          password := env.N8N_USER_PASSWORD.getD ""
          supabaseUrl := env.SUPABASE_URL.getD ""
          supabaseKey := env.SUPABASE_SERVICE_ROLE_KEY.getD ""
          userId := env.USER_ID.getD "" }

/-- `main`: constructing the manager precedes every network call, so a
constructor error terminates the run with an empty network trace; the
abstract `net` function stands for all network activity `run` would
perform with the validated configuration. -/
def mainModel (env : Env) (net : Config → List String) :
    Except String Unit × List String :=
  match initManager env with
  | .error e => (.error e, [])
  | .ok cfg => (.ok (), net cfg)

/-- Is `pre` a prefix of `l`? -/
def beginsSeq : List Char → List Char → Bool
  | [], _ => true
  | _ :: _, [] => false
  | a :: as, b :: bs => a == b && beginsSeq as bs

/-- Does `l` contain `n` as a contiguous subsequence? -/
def containsSeq (n : List Char) : List Char → Bool
  | [] => n.isEmpty
  | b :: bs => beginsSeq n (b :: bs) || containsSeq n bs

/-- Does the message mention the given name verbatim? -/
def strMentions (msg field : String) : Bool :=
  containsSeq field.toList msg.toList

/-- Claim C1: for every credential of sufficient length,
`validateAPIKey` probes the ordered endpoint list
`/rest/workflows`, `/rest/credentials`, `/rest/executions`; it returns
`true` at the first endpoint answering 200, returns `false` immediately
at the first endpoint answering 401 without probing any subsequent
endpoint, returns `true` at the first endpoint answering 403, and
returns `true` when every endpoint fails at the connection level; in
particular `[timeout, timeout, 200]` yields `true`, `[401]` at the first
endpoint yields `false`, and `[timeout, timeout, timeout]` yields
`true`. -/
theorem claim_C1 (key : String) (h : 20 ≤ key.length) (r2 r3 : HttpOutcome) :
    validateAPIKey key (oracle3 (.status 200) r2 r3) = (true, 1) ∧
    validateAPIKey key (oracle3 (.status 401) r2 r3) = (false, 1) ∧
    validateAPIKey key (oracle3 (.status 403) r2 r3) = (true, 1) ∧
    validateAPIKey key (oracle3 .connFail (.status 200) r3) = (true, 2) ∧
    validateAPIKey key (oracle3 .connFail (.status 401) r3) = (false, 2) ∧
    validateAPIKey key (oracle3 .connFail .connFail (.status 200)) = (true, 3) ∧
    validateAPIKey key (oracle3 .connFail .connFail .connFail) = (true, 3) := by
  have hnot : ¬ key.length < 20 := Nat.not_lt.mpr h
  refine ⟨?_, ?_, ?_, ?_, ?_, ?_, ?_⟩ <;>
    simp [validateAPIKey, hnot, testEndpoints, validateLoop, oracle3,
      endpointStep, axiosResult]

/-- Witness for C1: a concrete 20-character key against the `[401]`
scenario yields `false` after exactly one probe. -/
theorem claim_C1_witness :
    validateAPIKey "aaaaaaaaaaaaaaaaaaaa" (oracle3 (.status 401) .connFail .connFail)
      = (false, 1) :=
  (claim_C1 "aaaaaaaaaaaaaaaaaaaa" (by decide) .connFail .connFail).2.1

/-- If no health endpoint ever answers 200, every round fails and the
loop runs through its entire fuel. -/
theorem waitGo_never_healthy (health : Nat → String → HttpOutcome)
    (login : Nat → HttpOutcome)
    (h : ∀ i e, health i e ≠ .status 200) :
    ∀ fuel i, waitGo health login i fuel =
      { outcome := .error readinessTimeoutMsg, rounds := fuel,
        loginProbed := false, settleMs := 0 } := by
  intro fuel
  induction fuel with
  | zero => intro i; rfl
  | succ n ih =>
    intro i
    have hrd : healthRound (health i) = false := by
      simp only [healthRound, List.any_eq_false]
      intro e _
      simpa using h i e
    simp [waitGo, hrd, ih (i + 1)]

/-- Claim C5: a target that never answers 200 on any health path makes
`waitForN8NReady` perform exactly 45 (= `maxAttempts`) probe rounds, not
more, not fewer, and then fail with the readiness-timeout error rather
than returning success or looping further. -/
theorem claim_C5 (health : Nat → String → HttpOutcome) (login : Nat → HttpOutcome)
    (h : ∀ i e, health i e ≠ .status 200) :
    waitForN8NReady health login =
      { outcome := .error readinessTimeoutMsg, rounds := 45,
        loginProbed := false, settleMs := 0 } :=
  waitGo_never_healthy health login h 45 0

/-- Witness for C5: a target answering 503 everywhere times out after
exactly 45 rounds. -/
theorem claim_C5_witness :
    waitForN8NReady (fun _ _ => .status 503) (fun _ => .connFail) =
      { outcome := .error readinessTimeoutMsg, rounds := 45,
        loginProbed := false, settleMs := 0 } :=
  claim_C5 (fun _ _ => .status 503) (fun _ => .connFail)
    (fun _ _ hc => by cases hc)

/-- Counterexample to claim C4 as stated: a round whose health check
passed and whose confirmatory login probe fails at the connection level
still returns success (the source catches the probe failure, sleeps
15000 ms instead of 30000 ms, and returns `true`), so a connection-level
probe failure does not disqualify the round. -/
theorem claim_C4_cex :
    waitForN8NReady (fun _ _ => .status 200) (fun _ => .connFail) =
      { outcome := .ok true, rounds := 1, loginProbed := true, settleMs := 15000 } ∧
    (fun _ : Nat => HttpOutcome.connFail) 0 = .connFail := by
  constructor
  · rfl
  · rfl

/-- Claim C4 (amended): in every readiness round whose health check
passed, exactly one confirmatory probe of the authentication endpoint is
performed and the round returns success regardless of the probe's
outcome; the probe outcome only selects the settle duration (30000 ms
after any sub-500 response, 15000 ms after a connection-level or 5xx
failure) — no probe outcome disqualifies the round. -/
theorem claim_C4 (health : Nat → String → HttpOutcome) (login : Nat → HttpOutcome)
    (i fuel : Nat) (h : healthRound (health i) = true) :
    waitGo health login i (fuel + 1) =
      { outcome := .ok true, rounds := 1, loginProbed := true,
        settleMs :=
          match axiosResult (fun s => decide (s < 500)) (login i) with
          | .ok _ => 30000
          | .error _ => 15000 } := by
  simp only [waitGo, h, if_true]
  cases axiosResult (fun s => decide (s < 500)) (login i) <;> rfl

/-- Witness for C4 (amended): an immediately healthy target with a
200-answering login endpoint succeeds in one round with the 30000 ms
settle sleep after its single confirmatory probe. -/
theorem claim_C4_witness :
    waitGo (fun _ _ => .status 200) (fun _ => .status 200) 0 45 =
      { outcome := .ok true, rounds := 1, loginProbed := true, settleMs := 30000 } := by
  have h := claim_C4 (fun _ _ => .status 200) (fun _ => .status 200) 0 44 (by decide)
  simpa using h

/-- Claim C3: whenever the session-based attempt fails (any failure
reason), the coordinator invokes browser-based acquisition exactly once
and never re-invokes the session method (the strategy trace is exactly
`["session", "browser"]`); if the browser attempt also fails, the run
fails with the combined error listing both the session failure and the
browser failure, with no further fallback. -/
theorem claim_C3 (se : String) (browserResult : Except String Cred) :
    (acquireAPIKey (.error se) browserResult).2 = ["session", "browser"] ∧
    (∀ be, browserResult = .error be →
      (acquireAPIKey (.error se) browserResult).1 =
        .error ("API key creation failed: Session (" ++ se ++ ") and Browser (" ++ be ++ ")")) := by
  constructor
  · cases browserResult <;> rfl
  · intro be hbe
    subst hbe
    rfl

/-- Witness for C3: with a 404-creation session failure and a browser
failure, the trace is `["session", "browser"]` and the run fails with
the combined message. -/
theorem claim_C3_witness :
    (acquireAPIKey (.error "Session API creation failed with status 404")
        (.error "Could not find API key creation button")).2 = ["session", "browser"] ∧
    (acquireAPIKey (.error "Session API creation failed with status 404")
        (.error "Could not find API key creation button")).1 =
      .error ("API key creation failed: Session (Session API creation failed with status 404) and Browser (Could not find API key creation button)") := by
  have h := claim_C3 "Session API creation failed with status 404"
    (.error "Could not find API key creation button")
  exact ⟨h.1, h.2 "Could not find API key creation button" rfl⟩

/-- Claim C10: for every run and every outcome of the webhook
notification call (timeout, connection failure, or non-2xx response),
the notifier never fails the run: notification errors are swallowed, so
the result is `.ok ()` exactly as if the notification had succeeded. -/
theorem claim_C10 (webhookUrl : Option String) (resp : HttpOutcome) :
    sendWebhookNotification webhookUrl resp = .ok () := by
  cases webhookUrl with
  | none => rfl
  | some u =>
    simp only [sendWebhookNotification]
    cases axiosResult (fun s => decide (200 ≤ s ∧ s < 300)) resp <;> rfl

/-- Claim C9: on a successful session-path run, the created credential's
label is `"API-" ++ userId ++ "-" ++ toString epochMillis`, the token
passed the > 20 length floor, and the webhook payload's
`data.apiKeyPreview` is exactly the first 15 characters of the token
followed by `"..."`. -/
theorem claim_C9 (userId : String) (now : Nat) (nowIso : String)
    (o : SessionOracle) (c : Cred)
    (h : createAPIKeyViaSession userId now nowIso o = .ok c) :
    c.label = "API-" ++ userId ++ "-" ++ toString now ∧
    20 < c.apiKey.length ∧
    (buildWebhookData c).apiKeyPreview = strTake c.apiKey 15 ++ "..." ∧
    (strTake c.apiKey 15).length = 15 := by
  unfold createAPIKeyViaSession at h
  rcases hl : axiosResult (fun s => decide (s < 500)) o.loginOutcome with _ | s <;>
    rw [hl] at h <;> dsimp only at h
  · exact absurd h (by simp)
  · by_cases hs : s ≠ 200
    · rw [if_pos hs] at h
      exact absurd h (by simp)
    · rw [if_neg hs] at h
      by_cases hck : o.setCookies.isEmpty
      · rw [if_pos hck] at h
        exact absurd h (by simp)
      · rw [if_neg hck] at h
        rcases hc : axiosResult (fun s => decide (s < 500)) o.createOutcome with _ | cs <;>
          rw [hc] at h <;> dsimp only at h
        · exact absurd h (by simp)
        · by_cases hcs : cs = 201 ∨ cs = 200
          · rw [if_pos hcs] at h
            rcases hb : o.createBody with _ | k <;> rw [hb] at h <;> dsimp only at h
            · exact absurd h (by simp)
            · by_cases hk : 20 < k.length
              · rw [if_pos hk] at h
                rw [Except.ok.injEq] at h
                subst h
                refine ⟨rfl, hk, rfl, ?_⟩
                have hk2 : 20 < k.toList.length := hk
                have hmk : (strTake k 15).length = (k.toList.take 15).length := rfl
                rw [hmk, List.length_take]
                omega
              · rw [if_neg hk] at h
                exact absurd h (by simp)
          · rw [if_neg hcs] at h
            exact absurd h (by simp)

/-- Witness for C9: a concrete successful session creation with a
24-character token at epoch 1700000000000 produces the label
`API-user-42-1700000000000` and the 15-character preview. -/
theorem claim_C9_witness :
    ("API-user-42-1700000000000" = "API-" ++ "user-42" ++ "-" ++ toString 1700000000000 ∧
      20 < ("tok_aaaaaaaaaaaaaaaaaaaa" : String).length ∧
      (buildWebhookData ⟨"tok_aaaaaaaaaaaaaaaaaaaa", "API-user-42-1700000000000", "t"⟩).apiKeyPreview =
        strTake "tok_aaaaaaaaaaaaaaaaaaaa" 15 ++ "..." ∧
      (strTake "tok_aaaaaaaaaaaaaaaaaaaa" 15).length = 15) := by
  have h := claim_C9 "user-42" 1700000000000 "t"
    ⟨.status 200, ["n8n-auth=x"], .status 201, some "tok_aaaaaaaaaaaaaaaaaaaa"⟩
    ⟨"tok_aaaaaaaaaaaaaaaaaaaa", "API-user-42-1700000000000", "t"⟩ rfl
  simpa using h

/-- Counterexample to claim C6 as stated: when the browser launch itself
fails (a failing execution path of browser-based acquisition), the error
propagates with no screenshot attempt — `page` was never assigned, so the
`if (page)` guard skips the diagnostic capture. -/
theorem claim_C6_cex :
    createAPIKeyViaBrowser
        ⟨.error "Failed to launch the browser process", .ok (), .error "x", .ok (), .ok ()⟩ =
      { result := .error "Failed to launch the browser process",
        screenshotAttempted := false, closeAttempted := false } := rfl

/-- Claim C6 (amended): on every failing execution path reached after
the page was created, a full-page screenshot is attempted before the
error propagates, and the screenshot's own failure (any
`screenshotResult`, since the theorem quantifies over the whole oracle)
never replaces the underlying error; failures of browser launch or page
creation propagate without a screenshot; and whenever the launch
succeeded, the browser is closed on every exit path, success or failure,
with close failures swallowed. -/
theorem claim_C6 (o : BrowserOracle) (e : String) :
    (o.launchResult = .ok () → (createAPIKeyViaBrowser o).closeAttempted = true) ∧
    (o.launchResult = .ok () → o.newPageResult = .ok () → o.autoResult = .error e →
      (createAPIKeyViaBrowser o).result = .error e ∧
      (createAPIKeyViaBrowser o).screenshotAttempted = true) ∧
    (∀ c, o.launchResult = .ok () → o.newPageResult = .ok () → o.autoResult = .ok c →
      (createAPIKeyViaBrowser o).result = .ok c) := by
  obtain ⟨l, p, a, s, cl⟩ := o
  refine ⟨?_, ?_, ?_⟩
  · intro hl
    cases hl
    cases p <;> cases a <;> cases s <;> rfl
  · intro hl hp ha
    cases hl; cases hp; cases ha
    cases s <;> exact ⟨rfl, rfl⟩
  · intro c hl hp ha
    cases hl; cases hp; cases ha
    cases s <;> rfl

/-- Witness for C6 (amended): extraction failure with a failing
screenshot and failing close still reports the extraction error, with
the screenshot attempted and the browser close attempted. -/
theorem claim_C6_witness :
    (createAPIKeyViaBrowser
        ⟨.ok (), .ok (), .error "Failed to extract valid API key from page",
         .error "Could not take error screenshot", .error "close failed"⟩).result =
      .error "Failed to extract valid API key from page" ∧
    (createAPIKeyViaBrowser
        ⟨.ok (), .ok (), .error "Failed to extract valid API key from page",
         .error "Could not take error screenshot", .error "close failed"⟩).screenshotAttempted
      = true ∧
    (createAPIKeyViaBrowser
        ⟨.ok (), .ok (), .error "Failed to extract valid API key from page",
         .error "Could not take error screenshot", .error "close failed"⟩).closeAttempted
      = true := by
  have h := claim_C6
    ⟨.ok (), .ok (), .error "Failed to extract valid API key from page",
     .error "Could not take error screenshot", .error "close failed"⟩
    "Failed to extract valid API key from page"
  exact ⟨(h.2.1 rfl rfl rfl).1, (h.2.1 rfl rfl rfl).2, h.1 rfl⟩

/-- Counterexample to claim C2 as stated: storing against a database
with no record for the user identifier does not insert a new record —
the write fails with `No user found with ID: user-1`, so the write does
not succeed in both cases. -/
theorem claim_C2_cex :
    storeAPIKeyInSupabase [] "user-1" ⟨"tok_aaaaaaaaaaaaaaaaaaaa", "API-user-1-1", "t", "t", none, none, none⟩ =
      .error "No user found with ID: user-1" := rfl

/-- Claim C2 (amended): the persistence write updates by user
identifier: every record carrying the user identifier is updated in
place (the database keeps its length and all other records are
untouched), and if no record with that identifier exists, nothing is
inserted and the write fails with an error naming the identifier. -/
theorem claim_C2 (db : List UserRecord) (userId : String) (u : UpdateData) :
    ((∃ r ∈ db, r.id = userId) →
      storeAPIKeyInSupabase db userId u =
        .ok (db.map fun r => if r.id = userId then applyUpdate u r else r)) ∧
    ((∀ r ∈ db, r.id ≠ userId) →
      storeAPIKeyInSupabase db userId u = .error ("No user found with ID: " ++ userId)) := by
  constructor
  · rintro ⟨r, hr, hid⟩
    have hne : (db.filter fun r => r.id = userId).isEmpty = false := by
      rw [List.isEmpty_eq_false_iff_exists_mem]
      exact ⟨r, List.mem_filter.mpr ⟨hr, by simp [hid]⟩⟩
    simp [storeAPIKeyInSupabase, hne]
  · intro hall
    have hem : (db.filter fun r => r.id = userId).isEmpty = true := by
      rw [List.isEmpty_iff]
      rw [List.filter_eq_nil_iff]
      intro r hr
      simp [hall r hr]
    simp [storeAPIKeyInSupabase, hem]

/-- Witness for C2 (amended): a one-row database for `user-1` is updated
in place and the write succeeds. -/
theorem claim_C2_witness :
    storeAPIKeyInSupabase [{ id := "user-1" }] "user-1"
        ⟨"tok_aaaaaaaaaaaaaaaaaaaa", "API-user-1-1", "t", "t", none, none, none⟩ =
      .ok [applyUpdate ⟨"tok_aaaaaaaaaaaaaaaaaaaa", "API-user-1-1", "t", "t", none, none, none⟩
        { id := "user-1" }] := by
  have h := (claim_C2 [{ id := "user-1" }] "user-1"
    ⟨"tok_aaaaaaaaaaaaaaaaaaaa", "API-user-1-1", "t", "t", none, none, none⟩).1
    ⟨{ id := "user-1" }, by simp, rfl⟩
  simpa using h

/-- Dropping a prefix that is literally there succeeds. -/
theorem afterPref_append (s r : List Char) : afterPref s (s ++ r) = some r := by
  induction s with
  | nil => rfl
  | cons a as ih => simp [afterPref, ih]

/-- `afterPref` only succeeds on an actual prefix. -/
theorem afterPref_some (s : List Char) :
    ∀ l r, afterPref s l = some r → l = s ++ r := by
  induction s with
  | nil =>
    intro l r h
    simp only [afterPref, Option.some.injEq] at h
    simp [h]
  | cons a as ih =>
    intro l r h
    cases l with
    | nil => exact absurd h (by simp [afterPref])
    | cons b bs =>
      simp only [afterPref] at h
      by_cases hab : a = b
      · rw [if_pos hab] at h
        subst hab
        simp [ih bs r h]
      · rw [if_neg hab] at h
        cases h

/-- A host character is never a slash. -/
theorem urlHostChar_ne_slash (c : Char) (h : urlHostChar c = true) : c ≠ '/' := by
  intro hc
  subst hc
  exact absurd h (by decide)

/-- A passing scheme/host check decomposes the string. -/
theorem schemeHost_decomp (s l : List Char) (h : schemeHost s l = true) :
    ∃ c t, l = s ++ c :: t ∧ urlHostChar c = true := by
  unfold schemeHost at h
  rcases ha : afterPref s l with _ | r <;> rw [ha] at h
  · exact absurd h (by simp)
  · cases r with
    | nil => exact absurd h (by simp)
    | cons c t =>
      refine ⟨c, t, afterPref_some s l (c :: t) ha, ?_⟩
      simpa using h

/-- Stripping one trailing slash never destroys a passing scheme/host
check: the slash removed is behind the first host character. -/
theorem schemeHost_stripSlashL (s l : List Char) (h : schemeHost s l = true) :
    schemeHost s (stripSlashL l) = true := by
  obtain ⟨c, t, rfl, hc⟩ := schemeHost_decomp s l h
  unfold stripSlashL
  by_cases hl : (s ++ c :: t).getLast? = some '/'
  · rw [if_pos hl]
    cases t with
    | nil =>
      exfalso
      rw [List.getLast?_append_of_ne_nil _ (by simp)] at hl
      simp only [List.getLast?_singleton, Option.some.injEq] at hl
      exact urlHostChar_ne_slash c hc hl
    | cons d t' =>
      rw [List.dropLast_append_cons, List.dropLast_cons₂]
      unfold schemeHost
      rw [afterPref_append]
      exact hc
  · rw [if_neg hl]
    unfold schemeHost
    rw [afterPref_append]
    exact hc

/-- If the string does not end in a double slash, removing one trailing
slash leaves no trailing slash. -/
theorem stripSlashL_ends (l : List Char)
    (h : ((l.getLast? == some '/') && (l.dropLast.getLast? == some '/')) = false) :
    ((stripSlashL l).getLast? == some '/') = false := by
  unfold stripSlashL
  by_cases hl : l.getLast? = some '/'
  · rw [if_pos hl]
    rw [hl] at h
    simpa using h
  · rw [if_neg hl]
    simpa using hl

/-- Counterexample to claim C7 as stated: with the target URL present
but malformed (`ftp://x`) and the required operator email missing, the
run terminates with the URL-format configuration error, which does not
identify the missing `N8N_USER_EMAIL` field. -/
theorem claim_C7_cex :
    mainModel ⟨none, some "ftp://x", none, some "p", some "https://db.supabase.co",
        some "key", some "user-1"⟩ (fun _ => ["GET /healthz"]) =
      (.error "Invalid N8N URL format: ftp://x", []) ∧
    truthy (Env.N8N_USER_EMAIL ⟨none, some "ftp://x", none, some "p",
        some "https://db.supabase.co", some "key", some "user-1"⟩) = false ∧
    strMentions "Invalid N8N URL format: ftp://x" "N8N_USER_EMAIL" = false := by
  refine ⟨rfl, rfl, by decide⟩

/-- Claim C7 (amended): for every configuration input missing at least
one required field, the run terminates with a configuration error
before any network call (the network trace is empty); the error names
the URL requirement when the target URL is absent, and lists every
missing required variable when the URL is present and passes the format
check; when the URL is present but malformed, the error reports the
invalid URL format instead of the missing fields. -/
theorem claim_C7 (env : Env) (net : Config → List String) :
    (truthy (coalesceUrl env) = false →
      mainModel env net =
        (.error "Missing N8N URL: Set either N8N_EDITOR_BASE_URL or N8N_URL", [])) ∧
    (truthy (coalesceUrl env) = true →
      urlRegexTest ((coalesceUrl env).getD "") = false →
      mainModel env net =
        (.error ("Invalid N8N URL format: " ++ (coalesceUrl env).getD ""), [])) ∧
    (truthy (coalesceUrl env) = true →
      urlRegexTest ((coalesceUrl env).getD "") = true →
      missingRequired env ≠ [] →
      mainModel env net =
        (.error ("Missing required environment variables: " ++
          String.intercalate ", " (missingRequired env)), [])) := by
  refine ⟨?_, ?_, ?_⟩
  · intro h1
    simp [mainModel, initManager, h1]
  · intro h1 h2
    simp [mainModel, initManager, h1, h2]
  · intro h1 h2 h3
    simp [mainModel, initManager, h1, h2, h3]

/-- Witness for C7 (amended): with only the operator email missing, the
run stops before any network call with the message listing
`N8N_USER_EMAIL`. -/
theorem claim_C7_witness :
    mainModel ⟨some "https://n8n.example.com/", none, none, some "p",
        some "https://db.supabase.co", some "key", some "user-1"⟩
      (fun _ => ["GET /healthz"]) =
      (.error "Missing required environment variables: N8N_USER_EMAIL", []) := by
  have h := (claim_C7 ⟨some "https://n8n.example.com/", none, none, some "p",
      some "https://db.supabase.co", some "key", some "user-1"⟩
    (fun _ => ["GET /healthz"])).2.2 rfl (by decide) (by decide)
  exact h

/-- Counterexample to claim C8 as stated: the accepted configuration
whose URL is `https://a//` stores base URL `https://a/` — the
normalization `replace(/\/$/, '')` removes only one trailing slash, so
the stored base URL still ends with a slash. -/
theorem claim_C8_cex :
    initManager ⟨some "https://a//", none, some "a@b.co", some "p",
        some "https://db.supabase.co", some "key", some "user-1"⟩ =
      .ok { baseUrl := "https://a/", email := "a@b.co", password := "p",
            supabaseUrl := "https://db.supabase.co", supabaseKey := "key",
            userId := "user-1" } ∧
    endsWithSlash "https://a/" = true := by
  refine ⟨rfl, by decide⟩

/-- Claim C8 (amended): every configuration accepted by environment
validation stores a base URL that still passes the scheme-plus-host
format check after normalization and an email matching the code's
address pattern; normalization removes exactly one trailing slash, so
the stored base URL has no trailing slash whenever the configured URL
did not end in a double slash (it keeps one otherwise). -/
theorem claim_C8 (env : Env) (cfg : Config)
    (h : initManager env = .ok cfg) :
    urlRegexTest cfg.baseUrl = true ∧
    emailRegexTest cfg.email = true ∧
    (endsWithDoubleSlash ((coalesceUrl env).getD "") = false →
      endsWithSlash cfg.baseUrl = false) := by
  unfold initManager at h
  by_cases h1 : truthy (coalesceUrl env) = false
  · rw [if_pos h1] at h
    cases h
  · rw [if_neg h1] at h
    by_cases h2 : urlRegexTest ((coalesceUrl env).getD "") = false
    · rw [if_pos h2] at h
      cases h
    · rw [if_neg h2] at h
      by_cases h3 : missingRequired env ≠ []
      · rw [if_pos h3] at h
        cases h
      · rw [if_neg h3] at h
        by_cases h4 : emailRegexTest (env.N8N_USER_EMAIL.getD "") = false
        · rw [if_pos h4] at h
          cases h
        · rw [if_neg h4] at h
          rw [Except.ok.injEq] at h
          subst h
          have hurl : urlRegexTest ((coalesceUrl env).getD "") = true := by
            revert h2
            cases urlRegexTest ((coalesceUrl env).getD "") <;> simp
          have hemail : emailRegexTest (env.N8N_USER_EMAIL.getD "") = true := by
            revert h4
            cases emailRegexTest (env.N8N_USER_EMAIL.getD "") <;> simp
          refine ⟨?_, hemail, ?_⟩
          · unfold urlRegexTest at hurl ⊢
            rcases Bool.or_eq_true_iff.mp hurl with hh | hh
            · exact Bool.or_eq_true_iff.mpr
                (Or.inl (schemeHost_stripSlashL _ _ hh))
            · exact Bool.or_eq_true_iff.mpr
                (Or.inr (schemeHost_stripSlashL _ _ hh))
          · intro hdd
            exact stripSlashL_ends _ hdd

/-- Witness for C8 (amended): the accepted configuration with URL
`https://a.co/` stores base URL `https://a.co`, which passes the format
check and has no trailing slash, with a pattern-matching email. -/
theorem claim_C8_witness :
    urlRegexTest "https://a.co" = true ∧
    emailRegexTest "a@b.co" = true ∧
    endsWithSlash "https://a.co" = false := by
  have h := claim_C8 ⟨some "https://a.co/", none, some "a@b.co", some "p",
      some "https://db.supabase.co", some "key", some "user-1"⟩
    { baseUrl := "https://a.co", email := "a@b.co", password := "p",
      supabaseUrl := "https://db.supabase.co", supabaseKey := "key",
      userId := "user-1" } rfl
  exact ⟨h.1, h.2.1, h.2.2 (by decide)⟩
